import Mathlib

/-!
Shallow embedding of the lead-generation controller of `src/main.py`
(`EnhancedLeadGenerationTool`), together with theorems checking the
specification's claims about it.

The external collaborators (the Serper search API, the Groq LLM used for
relevance scoring, query refinement and lead extraction, the Selenium
content fetcher, and the Python `re`/`urllib` library calls used by the
regex fallback) are modelled as deterministic oracle functions bundled in
`Collabs`: each oracle maps the exact data the source sends to the
collaborator to the response the collaborator produces (with `Option` for
failure where the source catches exceptions).  Everything the repository's
own code does with those responses is translated directly from
`src/main.py`.  The wall clock (`datetime.now().isoformat()`, called once
per successfully scraped candidate) is modelled as a function from the
candidate's position in the processed batch to a timestamp string.

Floats in the source (`relevance_threshold = 0.6`, confidences) are
modelled as rationals; the comparisons the code performs are exact at
these values.
-/

/-- A search result from the provider: `title`, `snippet`, `link`
(the three keys `generate_leads_dataframe` reads). -/
structure SearchResult where
  title : String
  snippet : String
  link : String
deriving Repr, DecidableEq

/-- One entry of the JSON array produced by the relevance-scoring LLM:
`index`, `is_relevant`, `confidence`, `reason`, each possibly absent
(the code reads them with `dict.get` and a default). -/
structure RelevanceData where
  index : Option Nat
  is_relevant : Option Bool
  confidence : Option ℚ
  reason : Option String
deriving Repr, DecidableEq

/-- A judged result: the original search result enriched with the keys
`is_relevant`, `relevance_confidence`, `relevance_reason` that
`evaluate_relevance` adds to the copied dict. -/
structure JudgedResult where
  result : SearchResult
  is_relevant : Bool
  relevance_confidence : ℚ
  relevance_reason : String
deriving Repr, DecidableEq

/-- A JSON-ish value stored in a lead dict (string, boolean, or number). -/
inductive Val where
  | str : String → Val
  | bool : Bool → Val
  | num : ℚ → Val
deriving Repr, DecidableEq

/-- A lead record is a Python dict: an association list from keys to
values, first entry with a key wins on lookup, assignment overwrites. -/
abbrev LeadRecord : Type := List (String × Val)

/-- The deterministic external collaborators of the controller
(spec section 4.3), plus the Python library functions used by the
regex fallback extractor. -/
structure Collabs where
  /-- The search API's `organic` result list, as a function of the query
  string and the `num` field of the request payload; `[]` also models a
  failed request (the source returns `[]` from every `except` branch). -/
  organic : String → Nat → List SearchResult
  /-- The relevance-scoring LLM response for a batch of results and the
  original query: `some` parsed JSON array on success, `none` when the
  call or the JSON parse raises (the source's `except` branch). -/
  scorer : List SearchResult → String → Option (List RelevanceData)
  /-- The query-refinement step `refine_search_query`, as a function of
  the original query and the evaluated results; its internal LLM failure
  fallback (original query plus a generic phrase) is part of the oracle. -/
  refiner : String → List JudgedResult → String
  /-- `scrape_website`: `none` on a WebDriver or other error, otherwise
  the cleaned page text (which may be the empty string). -/
  fetcher : String → Option String
  /-- The lead-extraction LLM: given page content and the website URL,
  `some` parsed JSON dict on success, `none` when parsing or the call
  raises, in which case the source builds `_create_fallback_lead_data`. -/
  extractor : String → String → Option LeadRecord
  /-- `re.findall` with the email pattern. -/
  findEmails : String → List String
  /-- `re.findall` with the phone pattern: a list of 4-tuples of groups. -/
  findPhones : String → List (String × String × String × String)
  /-- `re.findall` with the LinkedIn pattern. -/
  findLinkedin : String → List String
  /-- `urlparse(url).netloc`. -/
  netloc : String → String
  /-- Python `str.title()`. -/
  pyTitle : String → String

/-- Configuration: `self.max_retries = 3` (line 51 of `src/main.py`). -/
def max_retries : Nat := 3

/-- Configuration: `self.relevance_threshold = 0.6` (line 52). -/
def relevance_threshold : ℚ := 0.6

/-- The `num` field `search_companies` puts in the API request payload:
`num_results * 2` (line 67, "Get more results to filter for relevance"). -/
def search_api_num (num_results : Nat) : Nat := num_results * 2

/-- `search_companies` (lines 56-84): sends the request with
`num = num_results * 2` and returns the `organic` list, or `[]` on error
(folded into the `organic` oracle). -/
def search_companies (c : Collabs) (query : String) (num_results : Nat) :
    List SearchResult :=
  c.organic query (search_api_num num_results)

/-- Python's `list.index(r)`: the index of the first element equal to `r`. -/
def pyIndex (l : List SearchResult) (r : SearchResult) : Nat :=
  l.findIdx (fun x => decide (x = r))

/-- The enrichment of one search result from the scorer's JSON array
(lines 143-157): scan `relevance_data` for the first entry whose `index`
equals `i`; on a hit take its fields with `dict.get` defaults
(`False`, `0.0`, `"No reason provided"`), otherwise use the default
judgment `False` / `0.0` / `"Could not evaluate relevance"`. -/
def judgeOne (relevance_data : List RelevanceData) (i : Nat)
    (r : SearchResult) : JudgedResult :=
  match relevance_data.find? (fun rd => decide (rd.index = some i)) with
  | some relevance_info =>
      ⟨r, relevance_info.is_relevant.getD false,
        relevance_info.confidence.getD 0,
        relevance_info.reason.getD "No reason provided"⟩
  | none => ⟨r, false, 0, "Could not evaluate relevance"⟩

/-- `evaluate_relevance` (lines 86-174): on scorer success, each result is
matched against the JSON array by `search_results.index(result)` (the
index of the first equal element, line 146); on scorer failure every
result is defaulted to relevant with confidence 0.5 (lines 170-174). -/
def evaluate_relevance (search_results : List SearchResult)
    (resp : Option (List RelevanceData)) : List JudgedResult :=
  match resp with
  | some relevance_data =>
      search_results.map
        (fun r => judgeOne relevance_data (pyIndex search_results r) r)
  | none =>
      search_results.map (fun r => ⟨r, true, 0.5, "Could not evaluate"⟩)

/-- Modelled from the spec: the spec (section 3) states each judged result
is "matched by original positional index", i.e. the result at position `i`
is matched against the scorer entry with `index = i`; used to compare with
the source's first-equal-element matching in `evaluate_relevance`. -/
def evaluate_relevance_spec (search_results : List SearchResult)
    (relevance_data : List RelevanceData) : List JudgedResult :=
  search_results.enum.map (fun p => judgeOne relevance_data p.1 p.2)

/-- `relevance_rate = len(relevant_results) / len(evaluated_results) if
evaluated_results else 0` (line 383). -/
def relevanceRate (evaluated : List JudgedResult) : ℚ :=
  if evaluated.isEmpty then 0
  else ((evaluated.filter fun r => r.is_relevant).length : ℚ) /
    (evaluated.length : ℚ)

/-- How the retry loop of `generate_leads_dataframe` ends: a search that
returned no results aborts the whole run (`return pd.DataFrame()`,
line 376); otherwise some batch is accepted, carrying the evaluated
results and their relevant sublist as left behind by the loop. -/
inductive LoopExit where
  | noResults : LoopExit
  | accepted : List JudgedResult → List JudgedResult → LoopExit
deriving Repr, DecidableEq

/-- Instrumentation of one run of the retry loop: how many search, judge
and refine collaborator calls were made, and the `num_results` argument
passed to `search_companies` on each search call (in order). -/
structure LoopStats where
  searches : Nat
  judges : Nat
  refines : Nat
  searchCounts : List Nat
deriving Repr, DecidableEq

/-- The retry loop of `generate_leads_dataframe` (lines 365-396).  `fuel`
is the number of refinements still allowed, i.e.
`max_retries - 1 - retry_count`; the source's guard
`retry_count < self.max_retries - 1` (line 390) is `fuel` being a
successor.  Each iteration searches with `num_results * 2` (line 372),
aborts if the search is empty, judges the batch against the original
query (line 379), accepts if the relevance rate reaches the threshold
(line 385), otherwise refines and retries while fuel remains, and on the
last attempt accepts the batch anyway (lines 394-396). -/
def leadLoop (c : Collabs) (origQ : String) (nr : Nat) :
    Nat → String → LoopExit × LoopStats
  | fuel, curQ =>
    let results := search_companies c curQ (nr * 2)
    if results.isEmpty then
      (LoopExit.noResults, ⟨1, 0, 0, [nr * 2]⟩)
    else
      let evaluated := evaluate_relevance results (c.scorer results origQ)
      let relevant := evaluated.filter fun r => r.is_relevant
      if relevance_threshold ≤ relevanceRate evaluated then
        (LoopExit.accepted evaluated relevant, ⟨1, 1, 0, [nr * 2]⟩)
      else
        match fuel with
        | Nat.succ f =>
            let next := leadLoop c origQ nr f (c.refiner origQ evaluated)
            (next.1,
              ⟨next.2.searches + 1, next.2.judges + 1, next.2.refines + 1,
                (nr * 2) :: next.2.searchCounts⟩)
        | 0 => (LoopExit.accepted evaluated relevant, ⟨1, 1, 0, [nr * 2]⟩)

/-- Selection of the batch to process (line 399):
`relevant_results[:num_results] if relevant_results else
evaluated_results[:num_results]`. -/
def selectFinal (relevant evaluated : List JudgedResult)
    (num_results : Nat) : List JudgedResult :=
  if !relevant.isEmpty then relevant.take num_results
  else evaluated.take num_results

/-- Python truthiness of the scraped content (`if content:` line 414):
`None` and the empty string are falsy. -/
def pyTruthy : Option String → Bool
  | none => false
  | some s => !s.isEmpty

/-- Dict assignment `d[k] = v`: overwrite the existing entry for `k`, or
append a new entry if the key is absent. -/
def setKey (d : LeadRecord) (k : String) (v : Val) : LeadRecord :=
  if (List.any d fun p => p.1 = k) then
    List.map (fun p => if p.1 = k then (k, v) else p) d
  else List.append d [(k, v)]

/-- `_create_fallback_lead_data` (lines 325-356): regex-derived partial
record with `"N/A"` sentinels, built when structured extraction fails. -/
def _create_fallback_lead_data (c : Collabs) (website_url content : String) :
    LeadRecord :=
  let emails := c.findEmails content
  let phones := c.findPhones content
  let linkedin_urls := c.findLinkedin content
  let domain := (c.netloc website_url).replace "www." ""
  let company_name := c.pyTitle ((domain.splitOn ".").headD "")
  [("company_name", Val.str company_name),
   ("email", Val.str (if emails.isEmpty then "N/A"
      else String.intercalate ", " (emails.take 3))),
   ("phone", Val.str (if phones.isEmpty then "N/A"
      else String.intercalate ", " ((phones.take 2).map
        (fun p => p.2.1 ++ "-" ++ p.2.2.1 ++ "-" ++ p.2.2.2)))),
   ("linkedin", Val.str (if linkedin_urls.isEmpty then "N/A"
      else String.intercalate ", " (linkedin_urls.take 2))),
   ("website", Val.str website_url),
   ("industry", Val.str "N/A"),
   ("description", Val.str (if 200 < content.length
      then content.take 200 ++ "..." else content)),
   ("address", Val.str "N/A"),
   ("contact_person", Val.str "N/A"),
   ("services", Val.str "N/A"),
   ("company_size", Val.str "N/A"),
   ("founded_year", Val.str "N/A"),
   ("revenue_range", Val.str "N/A"),
   ("technologies", Val.str "N/A"),
   ("social_media", Val.str "N/A")]

/-- `extract_lead_info` (lines 267-323): the parsed JSON dict from the
extraction LLM on success, the regex fallback on any failure. -/
def extract_lead_info (c : Collabs) (content website_url : String) :
    LeadRecord :=
  match c.extractor content website_url with
  | some lead_data => lead_data
  | none => _create_fallback_lead_data c website_url content

/-- The record appended for one successfully scraped candidate
(lines 416-424): the extracted dict with the six metadata keys assigned
in source order; `scraped_at` is the clock reading at position `i`. -/
def candidateRecord (c : Collabs) (clock : Nat → String) (r : JudgedResult)
    (i : Nat) (content : String) : LeadRecord :=
  let lead := extract_lead_info c content r.result.link
  let lead := setKey lead "search_title" (Val.str r.result.title)
  let lead := setKey lead "search_snippet" (Val.str r.result.snippet)
  let lead := setKey lead "is_relevant" (Val.bool r.is_relevant)
  let lead := setKey lead "relevance_confidence" (Val.num r.relevance_confidence)
  let lead := setKey lead "relevance_reason" (Val.str r.relevance_reason)
  setKey lead "scraped_at" (Val.str (clock i))

/-- Result of the fetch-and-extract stage: the accumulated records and
how many fetcher and extractor calls were made. -/
structure FetchStats where
  leads : List LeadRecord
  fetchCalls : Nat
  extractCalls : Nat
deriving Repr, DecidableEq

/-- The per-candidate loop of `generate_leads_dataframe` (lines 406-433):
each candidate is fetched once; on truthy content the record is extracted
and appended, otherwise the candidate is skipped; `i` is the 1-based
`enumerate` position. -/
def processCandidates (c : Collabs) (clock : Nat → String) :
    List JudgedResult → Nat → FetchStats
  | [], _ => ⟨[], 0, 0⟩
  | r :: rest, i =>
    let content := c.fetcher r.result.link
    let next := processCandidates c clock rest (i + 1)
    if pyTruthy content then
      ⟨candidateRecord c clock r i (content.getD "") :: next.leads,
        next.fetchCalls + 1, next.extractCalls + 1⟩
    else
      ⟨next.leads, next.fetchCalls + 1, next.extractCalls⟩

/-- A full run's observable outcome: the list of lead records (the rows
of the returned DataFrame) and the collaborator call counts. -/
structure RunOutput where
  leads : List LeadRecord
  stats : LoopStats
  fetchCalls : Nat
  extractCalls : Nat
deriving Repr, DecidableEq

/-- `generate_leads_dataframe` (lines 358-462): run the retry loop with
`max_retries - 1` refinements allowed, select the final candidates, and
fetch-and-extract each one; an aborted search, an empty selection, or
zero extracted leads all yield the empty DataFrame (no rows). -/
def generate_leads_dataframe (c : Collabs) (clock : Nat → String)
    (search_query : String) (num_results : Nat) : RunOutput :=
  let loopOut := leadLoop c search_query num_results (max_retries - 1)
    search_query
  match loopOut.1 with
  | LoopExit.noResults => ⟨[], loopOut.2, 0, 0⟩
  | LoopExit.accepted evaluated relevant =>
    let final_results := selectFinal relevant evaluated num_results
    if final_results.isEmpty then ⟨[], loopOut.2, 0, 0⟩
    else
      let fs := processCandidates c clock final_results 1
      ⟨fs.leads, loopOut.2, fs.fetchCalls, fs.extractCalls⟩

/-- Presence of a key in a lead record (a dict key being present). -/
def hasKey (d : LeadRecord) (k : String) : Prop := ∃ p ∈ d, p.1 = k

instance (d : LeadRecord) (k : String) : Decidable (hasKey d k) :=
  List.decidableBEx _ d

/-- The 15 lead fields of the extraction prompt and of the fallback
record. -/
def leadFieldNames : List String :=
  ["company_name", "email", "phone", "linkedin", "website", "industry",
   "description", "address", "contact_person", "services", "company_size",
   "founded_year", "revenue_range", "technologies", "social_media"]

/-- The six metadata keys the controller assigns on every record
(lines 419-424). -/
def metaFieldNames : List String :=
  ["search_title", "search_snippet", "is_relevant",
   "relevance_confidence", "relevance_reason", "scraped_at"]

/-- The judged batch produced by one attempt that searched with query
`q'`: the search results of `q'` judged against the original query
(lines 372 and 379). -/
def judgeBatch (c : Collabs) (origQ : String) (nr : Nat) (q' : String) :
    List JudgedResult :=
  evaluate_relevance (search_companies c q' (nr * 2))
    (c.scorer (search_companies c q' (nr * 2)) origQ)

/-- The query used by attempt `k` (0-based) when every attempt misses the
threshold: attempt 0 uses the original query, attempt `k+1` uses the
refiner's output for attempt `k`'s judged batch (line 391). -/
def attemptQuery (c : Collabs) (q : String) (nr : Nat) : Nat → String
  | 0 => q
  | k + 1 => c.refiner q (judgeBatch c q nr (attemptQuery c q nr k))

/-- A fixed example search result, used in concrete witness runs. -/
def exResult : SearchResult := ⟨"T", "S", "L"⟩

/-- Concrete deterministic collaborators: every search finds `exResult`,
the scorer marks index 0 relevant with confidence 1, the fetcher returns
non-empty content, and the extraction LLM returns the empty JSON dict. -/
def exCollabs : Collabs where
  organic := fun _ _ => [exResult]
  scorer := fun _ _ => some [⟨some 0, some true, some 1, some "ok"⟩]
  refiner := fun _ _ => "refined"
  fetcher := fun _ => some "x"
  extractor := fun _ _ => some []
  findEmails := fun _ => []
  findPhones := fun _ => []
  findLinkedin := fun _ => []
  netloc := fun _ => "a.com"
  pyTitle := fun s => s

/-- Variant of `exCollabs` whose scorer returns an empty judgment array,
so every result gets the default not-relevant judgment and every attempt
misses the threshold. -/
def exCollabsLow : Collabs := { exCollabs with scorer := fun _ _ => some [] }

/-- Variant of `exCollabs` whose search always returns zero results. -/
def exCollabsEmpty : Collabs := { exCollabs with organic := fun _ _ => [] }

/-- Variant of `exCollabs` whose fetcher always fails. -/
def exCollabsNoFetch : Collabs := { exCollabs with fetcher := fun _ => none }

/-- Variant of `exCollabs` whose fetcher succeeds with empty cleaned text
and whose extraction LLM fails (regex fallback path). -/
def exCollabsEmptyPage : Collabs :=
  { exCollabs with fetcher := fun _ => some "", extractor := fun _ _ => none }

/-! ## Helper lemmas -/

theorem judgeOne_result (rd : List RelevanceData) (i : Nat) (r : SearchResult) :
    (judgeOne rd i r).result = r := by
  unfold judgeOne
  cases rd.find? (fun x => decide (x.index = some i)) <;> rfl

theorem evaluate_relevance_map_result (rs : List SearchResult)
    (resp : Option (List RelevanceData)) :
    (evaluate_relevance rs resp).map (fun j => j.result) = rs := by
  cases resp with
  | none =>
      simp only [evaluate_relevance, List.map_map]
      exact List.map_id rs
  | some rd =>
      simp only [evaluate_relevance, List.map_map]
      have : ∀ x ∈ rs, ((fun j : JudgedResult => j.result) ∘
          fun r => judgeOne rd (pyIndex rs r) r) x = id x := by
        intro x _
        simp [judgeOne_result]
      rw [List.map_congr_left this]
      exact List.map_id rs

theorem evaluate_relevance_length (rs : List SearchResult)
    (resp : Option (List RelevanceData)) :
    (evaluate_relevance rs resp).length = rs.length := by
  cases resp <;> simp [evaluate_relevance]

theorem pyIndex_getElem (rs : List SearchResult) (hnd : rs.Nodup) (n : Nat)
    (hn : n < rs.length) : pyIndex rs rs[n] = n := by
  induction rs generalizing n with
  | nil => simp at hn
  | cons a t ih =>
      rcases List.nodup_cons.mp hnd with ⟨ha, ht⟩
      cases n with
      | zero => simp [pyIndex, List.findIdx_cons]
      | succ m =>
          have hm : m < t.length := by simpa using hn
          have hax : a ≠ t[m] := fun h => ha (h ▸ List.getElem_mem hm)
          have hget : (a :: t)[m + 1] = t[m] := by simp
          rw [hget]
          simp only [pyIndex, List.findIdx_cons, decide_eq_false hax, cond_false]
          simpa [pyIndex] using ih ht m hm

theorem hasKey_setKey_self (d : LeadRecord) (k : String) (v : Val) :
    hasKey (setKey d k v) k := by
  unfold setKey
  by_cases h : List.any d fun p => p.1 = k
  · rw [if_pos h]
    obtain ⟨p, hp, hpk⟩ := List.any_eq_true.mp h
    exact ⟨(k, v),
      List.mem_map.mpr ⟨p, hp, if_pos (of_decide_eq_true hpk)⟩, rfl⟩
  · rw [if_neg h]
    exact ⟨(k, v), by simp, rfl⟩

theorem hasKey_setKey_of (d : LeadRecord) (k k' : String) (v : Val)
    (h : hasKey d k') : hasKey (setKey d k v) k' := by
  obtain ⟨p, hp, hpk⟩ := h
  unfold setKey
  by_cases hany : List.any d fun q => q.1 = k
  · rw [if_pos hany]
    by_cases hpk' : p.1 = k
    · exact ⟨(k, v), List.mem_map.mpr ⟨p, hp, if_pos hpk'⟩,
        by rw [← hpk, hpk']⟩
    · exact ⟨p, List.mem_map.mpr ⟨p, hp, if_neg hpk'⟩, hpk⟩
  · rw [if_neg hany]
    exact ⟨p, List.mem_append_left _ hp, hpk⟩

theorem hasKey_of_mem_keys (d : LeadRecord) (k : String)
    (h : k ∈ d.map Prod.fst) : hasKey d k := by
  obtain ⟨p, hp, hpk⟩ := List.mem_map.mp h
  exact ⟨p, hp, hpk⟩

theorem fallback_keys (c : Collabs) (website_url content : String) :
    (_create_fallback_lead_data c website_url content).map Prod.fst =
      leadFieldNames := rfl

theorem hasKey_candidateRecord_meta (c : Collabs) (clock : Nat → String)
    (r : JudgedResult) (i : Nat) (content : String) :
    ∀ k ∈ metaFieldNames, hasKey (candidateRecord c clock r i content) k := by
  intro k hk
  have hrec : candidateRecord c clock r i content =
      setKey (setKey (setKey (setKey (setKey (setKey
        (extract_lead_info c content r.result.link)
        "search_title" (Val.str r.result.title))
        "search_snippet" (Val.str r.result.snippet))
        "is_relevant" (Val.bool r.is_relevant))
        "relevance_confidence" (Val.num r.relevance_confidence))
        "relevance_reason" (Val.str r.relevance_reason))
        "scraped_at" (Val.str (clock i)) := rfl
  rw [hrec]
  simp only [metaFieldNames, List.mem_cons, List.not_mem_nil, or_false] at hk
  rcases hk with rfl | rfl | rfl | rfl | rfl | rfl
  · exact hasKey_setKey_of _ _ _ _ (hasKey_setKey_of _ _ _ _
      (hasKey_setKey_of _ _ _ _ (hasKey_setKey_of _ _ _ _
      (hasKey_setKey_of _ _ _ _ (hasKey_setKey_self _ _ _)))))
  · exact hasKey_setKey_of _ _ _ _ (hasKey_setKey_of _ _ _ _
      (hasKey_setKey_of _ _ _ _ (hasKey_setKey_of _ _ _ _
      (hasKey_setKey_self _ _ _))))
  · exact hasKey_setKey_of _ _ _ _ (hasKey_setKey_of _ _ _ _
      (hasKey_setKey_of _ _ _ _ (hasKey_setKey_self _ _ _)))
  · exact hasKey_setKey_of _ _ _ _ (hasKey_setKey_of _ _ _ _
      (hasKey_setKey_self _ _ _))
  · exact hasKey_setKey_of _ _ _ _ (hasKey_setKey_self _ _ _)
  · exact hasKey_setKey_self _ _ _

theorem mem_processCandidates (c : Collabs) (clock : Nat → String) :
    ∀ (l : List JudgedResult) (i : Nat) (rec : LeadRecord),
      rec ∈ (processCandidates c clock l i).leads →
      ∃ (r : JudgedResult) (j : Nat) (s : String),
        rec = candidateRecord c clock r j s := by
  intro l
  induction l with
  | nil => intro i rec h; simp [processCandidates] at h
  | cons r rest ih =>
      intro i rec h
      by_cases ht : pyTruthy (c.fetcher r.result.link)
      · simp only [processCandidates, ht, if_pos] at h
        rcases List.mem_cons.mp h with hr | hr
        · exact ⟨r, i, (c.fetcher r.result.link).getD "", hr⟩
        · exact ih (i + 1) rec hr
      · simp only [processCandidates, ht, if_neg, Bool.false_eq_true,
          if_false] at h
        exact ih (i + 1) rec h

theorem processCandidates_fetchCalls (c : Collabs) (clock : Nat → String) :
    ∀ (l : List JudgedResult) (i : Nat),
      (processCandidates c clock l i).fetchCalls = l.length := by
  intro l
  induction l with
  | nil => intro i; rfl
  | cons r rest ih =>
      intro i
      by_cases ht : pyTruthy (c.fetcher r.result.link) <;>
        simp [processCandidates, ht, ih]

theorem processCandidates_append (c : Collabs) (clock : Nat → String) :
    ∀ (l1 l2 : List JudgedResult) (i : Nat),
      processCandidates c clock (l1 ++ l2) i =
        ⟨(processCandidates c clock l1 i).leads ++
            (processCandidates c clock l2 (i + l1.length)).leads,
          (processCandidates c clock l1 i).fetchCalls +
            (processCandidates c clock l2 (i + l1.length)).fetchCalls,
          (processCandidates c clock l1 i).extractCalls +
            (processCandidates c clock l2 (i + l1.length)).extractCalls⟩ := by
  intro l1
  induction l1 with
  | nil => intro l2 i; simp [processCandidates]
  | cons r rest ih =>
      intro l2 i
      have harith : i + 1 + rest.length = i + (rest.length + 1) := by omega
      by_cases ht : pyTruthy (c.fetcher r.result.link) <;>
        simp [processCandidates, ht, ih, harith, FetchStats.mk.injEq] <;>
        omega

theorem processCandidates_fetcher_congr (c : Collabs)
    (f' : String → Option String) (clock : Nat → String) :
    ∀ (l : List JudgedResult) (i : Nat),
      (∀ x ∈ l, f' x.result.link = c.fetcher x.result.link) →
      processCandidates { c with fetcher := f' } clock l i =
        processCandidates c clock l i := by
  intro l
  induction l with
  | nil => intro i _; rfl
  | cons r rest ih =>
      intro i hagree
      have hr : f' r.result.link = c.fetcher r.result.link :=
        hagree r (List.mem_cons_self r rest)
      have hrest : ∀ x ∈ rest, f' x.result.link = c.fetcher x.result.link :=
        fun x hx => hagree x (List.mem_cons_of_mem r hx)
      have hcand : ∀ (j : Nat) (s : String),
          candidateRecord { c with fetcher := f' } clock r j s =
            candidateRecord c clock r j s := fun _ _ => rfl
      by_cases ht : pyTruthy (c.fetcher r.result.link) <;>
        simp [processCandidates, ht, hr, ih (i + 1) hrest, hcand]

theorem relevanceRate_scorer_failure (rs : List SearchResult) (h : rs ≠ []) :
    relevanceRate (evaluate_relevance rs none) = 1 := by
  have hne : (evaluate_relevance rs none).isEmpty = false := by
    cases rs with
    | nil => exact absurd rfl h
    | cons a t => rfl
  have hfilter : (evaluate_relevance rs none).filter
      (fun r => r.is_relevant) = evaluate_relevance rs none := by
    apply List.filter_eq_self.mpr
    intro a ha
    simp only [evaluate_relevance, List.mem_map] at ha
    obtain ⟨r, _, hr⟩ := ha
    rw [← hr]
  have hlen : ((evaluate_relevance rs none).length : ℚ) ≠ 0 := by
    rw [evaluate_relevance_length]
    exact_mod_cast fun hz => h (List.length_eq_zero.mp hz)
  rw [relevanceRate, if_neg (by rw [hne]; exact Bool.false_ne_true),
    hfilter, div_self hlen]

theorem threshold_le_one : relevance_threshold ≤ 1 := by
  rw [relevance_threshold]
  norm_num

theorem leadLoop_empty (c : Collabs) (origQ curQ : String) (nr fuel : Nat)
    (h : search_companies c curQ (nr * 2) = []) :
    leadLoop c origQ nr fuel curQ =
      (LoopExit.noResults, ⟨1, 0, 0, [nr * 2]⟩) := by
  rw [leadLoop]
  simp [h]

theorem leadLoop_accept (c : Collabs) (origQ curQ : String) (nr fuel : Nat)
    (hne : search_companies c curQ (nr * 2) ≠ [])
    (hth : relevance_threshold ≤ relevanceRate (judgeBatch c origQ nr curQ)) :
    leadLoop c origQ nr fuel curQ =
      (LoopExit.accepted (judgeBatch c origQ nr curQ)
        ((judgeBatch c origQ nr curQ).filter fun r => r.is_relevant),
       ⟨1, 1, 0, [nr * 2]⟩) := by
  rw [leadLoop]
  simp only [judgeBatch] at hth
  simp [hne, hth, judgeBatch]

theorem leadLoop_last (c : Collabs) (origQ curQ : String) (nr : Nat)
    (hne : search_companies c curQ (nr * 2) ≠ [])
    (hth : ¬ relevance_threshold ≤ relevanceRate (judgeBatch c origQ nr curQ)) :
    leadLoop c origQ nr 0 curQ =
      (LoopExit.accepted (judgeBatch c origQ nr curQ)
        ((judgeBatch c origQ nr curQ).filter fun r => r.is_relevant),
       ⟨1, 1, 0, [nr * 2]⟩) := by
  rw [leadLoop]
  simp only [judgeBatch] at hth
  simp [hne, hth, judgeBatch]

theorem leadLoop_retry (c : Collabs) (origQ curQ : String) (nr f : Nat)
    (hne : search_companies c curQ (nr * 2) ≠ [])
    (hth : ¬ relevance_threshold ≤ relevanceRate (judgeBatch c origQ nr curQ)) :
    leadLoop c origQ nr (f + 1) curQ =
      ((leadLoop c origQ nr f
          (c.refiner origQ (judgeBatch c origQ nr curQ))).1,
       ⟨(leadLoop c origQ nr f
            (c.refiner origQ (judgeBatch c origQ nr curQ))).2.searches + 1,
        (leadLoop c origQ nr f
            (c.refiner origQ (judgeBatch c origQ nr curQ))).2.judges + 1,
        (leadLoop c origQ nr f
            (c.refiner origQ (judgeBatch c origQ nr curQ))).2.refines + 1,
        (nr * 2) ::
          (leadLoop c origQ nr f
            (c.refiner origQ (judgeBatch c origQ nr curQ))).2.searchCounts⟩) := by
  rw [leadLoop]
  simp only [judgeBatch] at hth
  simp [hne, hth, judgeBatch]

theorem leadLoop_noResults_counts (c : Collabs) (origQ : String) (nr : Nat) :
    ∀ (fuel : Nat) (curQ : String),
      (leadLoop c origQ nr fuel curQ).1 = LoopExit.noResults →
      (leadLoop c origQ nr fuel curQ).2.judges + 1 =
          (leadLoop c origQ nr fuel curQ).2.searches ∧
        (leadLoop c origQ nr fuel curQ).2.refines + 1 =
          (leadLoop c origQ nr fuel curQ).2.searches := by
  intro fuel
  induction fuel with
  | zero =>
      intro curQ h
      by_cases he : search_companies c curQ (nr * 2) = []
      · rw [leadLoop_empty c origQ curQ nr 0 he]
        exact ⟨rfl, rfl⟩
      · by_cases hth : relevance_threshold ≤
            relevanceRate (judgeBatch c origQ nr curQ)
        · rw [leadLoop_accept c origQ curQ nr 0 he hth] at h
          exact absurd h (by simp)
        · rw [leadLoop_last c origQ curQ nr he hth] at h
          exact absurd h (by simp)
  | succ f ih =>
      intro curQ h
      by_cases he : search_companies c curQ (nr * 2) = []
      · rw [leadLoop_empty c origQ curQ nr (f + 1) he]
        exact ⟨rfl, rfl⟩
      · by_cases hth : relevance_threshold ≤
            relevanceRate (judgeBatch c origQ nr curQ)
        · rw [leadLoop_accept c origQ curQ nr (f + 1) he hth] at h
          exact absurd h (by simp)
        · rw [leadLoop_retry c origQ curQ nr f he hth] at h ⊢
          obtain ⟨h1, h2⟩ := ih _ (by simpa using h)
          dsimp only at h1 h2 ⊢
          omega

theorem leadLoop_accepted_filter (c : Collabs) (origQ : String) (nr : Nat) :
    ∀ (fuel : Nat) (curQ : String) (E R : List JudgedResult),
      (leadLoop c origQ nr fuel curQ).1 = LoopExit.accepted E R →
      R = E.filter fun r => r.is_relevant := by
  intro fuel
  induction fuel with
  | zero =>
      intro curQ E R h
      by_cases he : search_companies c curQ (nr * 2) = []
      · rw [leadLoop_empty c origQ curQ nr 0 he] at h
        exact absurd h (by simp)
      · by_cases hth : relevance_threshold ≤
            relevanceRate (judgeBatch c origQ nr curQ)
        · rw [leadLoop_accept c origQ curQ nr 0 he hth] at h
          obtain ⟨hE, hR⟩ := LoopExit.accepted.inj h.symm
          rw [hR, hE]
        · rw [leadLoop_last c origQ curQ nr he hth] at h
          obtain ⟨hE, hR⟩ := LoopExit.accepted.inj h.symm
          rw [hR, hE]
  | succ f ih =>
      intro curQ E R h
      by_cases he : search_companies c curQ (nr * 2) = []
      · rw [leadLoop_empty c origQ curQ nr (f + 1) he] at h
        exact absurd h (by simp)
      · by_cases hth : relevance_threshold ≤
            relevanceRate (judgeBatch c origQ nr curQ)
        · rw [leadLoop_accept c origQ curQ nr (f + 1) he hth] at h
          obtain ⟨hE, hR⟩ := LoopExit.accepted.inj h.symm
          rw [hR, hE]
        · rw [leadLoop_retry c origQ curQ nr f he hth] at h
          exact ih _ E R (by simpa using h)

theorem leadLoop_counts_le (c : Collabs) (origQ : String) (nr : Nat) :
    ∀ (fuel : Nat) (curQ : String),
      (leadLoop c origQ nr fuel curQ).2.searches ≤ fuel + 1 ∧
        (leadLoop c origQ nr fuel curQ).2.judges ≤ fuel + 1 ∧
        (leadLoop c origQ nr fuel curQ).2.refines ≤ fuel := by
  intro fuel
  induction fuel with
  | zero =>
      intro curQ
      by_cases he : search_companies c curQ (nr * 2) = []
      · rw [leadLoop_empty c origQ curQ nr 0 he]
        refine ⟨?_, ?_, ?_⟩ <;> dsimp only <;> omega
      · by_cases hth : relevance_threshold ≤
            relevanceRate (judgeBatch c origQ nr curQ)
        · rw [leadLoop_accept c origQ curQ nr 0 he hth]
          refine ⟨?_, ?_, ?_⟩ <;> dsimp only <;> omega
        · rw [leadLoop_last c origQ curQ nr he hth]
          refine ⟨?_, ?_, ?_⟩ <;> dsimp only <;> omega
  | succ f ih =>
      intro curQ
      by_cases he : search_companies c curQ (nr * 2) = []
      · rw [leadLoop_empty c origQ curQ nr (f + 1) he]
        refine ⟨?_, ?_, ?_⟩ <;> dsimp only <;> omega
      · by_cases hth : relevance_threshold ≤
            relevanceRate (judgeBatch c origQ nr curQ)
        · rw [leadLoop_accept c origQ curQ nr (f + 1) he hth]
          refine ⟨?_, ?_, ?_⟩ <;> dsimp only <;> omega
        · rw [leadLoop_retry c origQ curQ nr f he hth]
          obtain ⟨h1, h2, h3⟩ := ih (c.refiner origQ (judgeBatch c origQ nr curQ))
          refine ⟨?_, ?_, ?_⟩ <;> dsimp only <;> omega

theorem leadLoop_searchCounts (c : Collabs) (origQ : String) (nr : Nat) :
    ∀ (fuel : Nat) (curQ : String) (n : Nat),
      n ∈ (leadLoop c origQ nr fuel curQ).2.searchCounts → n = nr * 2 := by
  intro fuel
  induction fuel with
  | zero =>
      intro curQ n hn
      by_cases he : search_companies c curQ (nr * 2) = []
      · rw [leadLoop_empty c origQ curQ nr 0 he] at hn
        simpa using hn
      · by_cases hth : relevance_threshold ≤
            relevanceRate (judgeBatch c origQ nr curQ)
        · rw [leadLoop_accept c origQ curQ nr 0 he hth] at hn
          simpa using hn
        · rw [leadLoop_last c origQ curQ nr he hth] at hn
          simpa using hn
  | succ f ih =>
      intro curQ n hn
      by_cases he : search_companies c curQ (nr * 2) = []
      · rw [leadLoop_empty c origQ curQ nr (f + 1) he] at hn
        simpa using hn
      · by_cases hth : relevance_threshold ≤
            relevanceRate (judgeBatch c origQ nr curQ)
        · rw [leadLoop_accept c origQ curQ nr (f + 1) he hth] at hn
          simpa using hn
        · rw [leadLoop_retry c origQ curQ nr f he hth] at hn
          simp only [List.mem_cons] at hn
          rcases hn with rfl | hn
          · rfl
          · exact ih _ n hn

/-! ## Claim theorems -/

/-- C5: when the relevance-scoring collaborator fails, `evaluate_relevance`
defaults every result of the batch to relevant with confidence 0.5
(fail-open), preserving the batch and its order; consequently the batch's
relevance rate meets the threshold and the retry loop accepts it and
continues rather than aborting. -/
theorem C5_scorer_failure_fail_open :
    ∀ rs : List SearchResult,
      ((evaluate_relevance rs none).map (fun j => j.result) = rs ∧
        ∀ j ∈ evaluate_relevance rs none,
          j.is_relevant = true ∧ j.relevance_confidence = 0.5) ∧
      (rs ≠ [] →
        relevance_threshold ≤ relevanceRate (evaluate_relevance rs none)) ∧
      (∀ (c : Collabs) (origQ curQ : String) (nr fuel : Nat),
        c.scorer = (fun _ _ => none) →
        search_companies c curQ (nr * 2) ≠ [] →
        (leadLoop c origQ nr fuel curQ).1 =
          LoopExit.accepted
            (evaluate_relevance (search_companies c curQ (nr * 2)) none)
            ((evaluate_relevance (search_companies c curQ (nr * 2))
              none).filter fun r => r.is_relevant)) := by
  intro rs
  refine ⟨⟨evaluate_relevance_map_result rs none, ?_⟩, ?_, ?_⟩
  · intro j hj
    simp only [evaluate_relevance, List.mem_map] at hj
    obtain ⟨r, _, hr⟩ := hj
    rw [← hr]
    exact ⟨rfl, rfl⟩
  · intro h
    rw [relevanceRate_scorer_failure rs h]
    exact threshold_le_one
  · intro c origQ curQ nr fuel hsc hne
    have hjb : judgeBatch c origQ nr curQ =
        evaluate_relevance (search_companies c curQ (nr * 2)) none := by
      rw [judgeBatch, hsc]
    have hth : relevance_threshold ≤
        relevanceRate (judgeBatch c origQ nr curQ) := by
      rw [hjb, relevanceRate_scorer_failure _ hne]
      exact threshold_le_one
    rw [leadLoop_accept c origQ curQ nr fuel hne hth]
    dsimp only
    rw [hjb]

theorem C5_scorer_failure_fail_open_witness :
    relevance_threshold ≤ relevanceRate (evaluate_relevance [exResult] none) ∧
    (leadLoop { exCollabs with scorer := fun _ _ => none } "q" 1 2 "q").1 =
      LoopExit.accepted (evaluate_relevance [exResult] none)
        ((evaluate_relevance [exResult] none).filter fun r =>
          r.is_relevant) := by
  have h := C5_scorer_failure_fail_open [exResult]
  refine ⟨h.2.1 (by simp), ?_⟩
  have h3 := h.2.2 { exCollabs with scorer := fun _ _ => none } "q" "q" 1 2
    rfl (by with_unfolding_all decide)
  exact h3

/-- C10: a fetch that succeeds but yields empty cleaned text is treated
exactly like a failed fetch: the candidate is skipped, no extraction call
is made for it, and no record is appended for it. -/
theorem C10_empty_content_skipped :
    ∀ (c : Collabs) (clock : Nat → String) (r : JudgedResult)
      (rest : List JudgedResult) (i : Nat),
      c.fetcher r.result.link = some "" →
      processCandidates c clock (r :: rest) i =
        ⟨(processCandidates c clock rest (i + 1)).leads,
         (processCandidates c clock rest (i + 1)).fetchCalls + 1,
         (processCandidates c clock rest (i + 1)).extractCalls⟩ := by
  intro c clock r rest i h
  have ht : pyTruthy (c.fetcher r.result.link) = false := by rw [h]; rfl
  simp [processCandidates, ht]

theorem C10_empty_content_skipped_witness :
    processCandidates exCollabsEmptyPage (fun _ => "t")
      [⟨exResult, true, 1, "ok"⟩] 1 = ⟨[], 1, 0⟩ := by
  have h := C10_empty_content_skipped exCollabsEmptyPage (fun _ => "t")
    ⟨exResult, true, 1, "ok"⟩ [] 1 rfl
  simpa [processCandidates] using h

/-- C2 counterexample: in a run with targetCount 5 the loop's only
iteration passes 10 to `search_companies`, which puts `num = 20 = 4 × 5`
in the provider request — not `2 × 5 = 10` as the claim states. -/
theorem C2_counterexample_oversample :
    (leadLoop exCollabs "q" 5 2 "q").2.searchCounts = [10] ∧
    (leadLoop exCollabs "q" 5 2 "q").2.searchCounts.map search_api_num
      = [20] ∧
    ¬ (leadLoop exCollabs "q" 5 2 "q").2.searchCounts.map search_api_num
      = [2 * 5] := by
  with_unfolding_all decide

/-- C2 (amended): on every loop iteration the controller passes
`2 × targetCount` as the count argument to its search wrapper, and the
wrapper doubles that again in the provider request payload, so every
provider request asks for `4 × targetCount` results. -/
theorem C2_amended_oversample :
    ∀ (c : Collabs) (origQ curQ : String) (nr fuel : Nat),
      ∀ n ∈ (leadLoop c origQ nr fuel curQ).2.searchCounts,
        n = 2 * nr ∧ search_api_num n = 4 * nr := by
  intro c origQ curQ nr fuel n hn
  have h := leadLoop_searchCounts c origQ nr fuel curQ n hn
  refine ⟨by omega, ?_⟩
  rw [h]
  simp only [search_api_num]
  omega

theorem C2_amended_oversample_witness :
    (10 : Nat) = 2 * 5 ∧ search_api_num 10 = 4 * 5 :=
  C2_amended_oversample exCollabs "q" "q" 5 2 10
    (by with_unfolding_all decide)

/-- C3: a search that returns zero results terminates the whole operation:
the loop returns the no-results exit at once with no judge or refine call
for that attempt; every aborted run has judge and refine counts exactly
one below its search count (so the aborting attempt triggered nothing
further); and the run's output is empty with zero fetcher and zero
extractor calls. -/
theorem C3_zero_results_aborts :
    (∀ (c : Collabs) (origQ curQ : String) (nr fuel : Nat),
      search_companies c curQ (nr * 2) = [] →
      leadLoop c origQ nr fuel curQ =
        (LoopExit.noResults, ⟨1, 0, 0, [nr * 2]⟩)) ∧
    (∀ (c : Collabs) (origQ curQ : String) (nr fuel : Nat),
      (leadLoop c origQ nr fuel curQ).1 = LoopExit.noResults →
      (leadLoop c origQ nr fuel curQ).2.judges + 1 =
          (leadLoop c origQ nr fuel curQ).2.searches ∧
        (leadLoop c origQ nr fuel curQ).2.refines + 1 =
          (leadLoop c origQ nr fuel curQ).2.searches) ∧
    (∀ (c : Collabs) (clock : Nat → String) (q : String) (nr : Nat),
      (leadLoop c q nr (max_retries - 1) q).1 = LoopExit.noResults →
      generate_leads_dataframe c clock q nr =
        ⟨[], (leadLoop c q nr (max_retries - 1) q).2, 0, 0⟩) := by
  refine ⟨?_, ?_, ?_⟩
  · intro c origQ curQ nr fuel h
    exact leadLoop_empty c origQ curQ nr fuel h
  · intro c origQ curQ nr fuel h
    exact leadLoop_noResults_counts c origQ nr fuel curQ h
  · intro c clock q nr h
    simp [generate_leads_dataframe, h]

theorem C3_zero_results_aborts_witness :
    generate_leads_dataframe exCollabsEmpty (fun _ => "t") "q" 1 =
      ⟨[], ⟨1, 0, 0, [2]⟩, 0, 0⟩ := by
  have h := C3_zero_results_aborts.2.2 exCollabsEmpty (fun _ => "t") "q" 1
    (by with_unfolding_all decide)
  rw [h]
  with_unfolding_all decide

/-- C4: the final candidate selection is the relevant sublist truncated to
targetCount when that sublist is non-empty, otherwise the full judged
batch truncated to targetCount; the selection is a subsequence of the
provider-ordered batch (no re-ranking by confidence), has length at most
targetCount, every candidate selected in the relevant case is relevant,
and every accepted loop exit's relevant list is exactly the judged batch
filtered on relevance. -/
theorem C4_selection_policy :
    ∀ (rs : List SearchResult) (resp : Option (List RelevanceData))
      (nr : Nat),
      let E := evaluate_relevance rs resp
      let R := E.filter fun r => r.is_relevant
      let F := selectFinal R E nr
      ((F.map fun j => j.result).Sublist rs ∧ F.length ≤ nr) ∧
      (R ≠ [] → F = R.take nr ∧ ∀ j ∈ F, j.is_relevant = true) ∧
      (R = [] → F = E.take nr) ∧
      (∀ (c : Collabs) (origQ curQ : String) (nr' fuel : Nat)
        (E' R' : List JudgedResult),
        (leadLoop c origQ nr' fuel curQ).1 = LoopExit.accepted E' R' →
        R' = E'.filter fun r => r.is_relevant) := by
  intro rs resp nr E R F
  have h1 : (R.take nr).Sublist E :=
    (List.take_sublist nr R).trans (List.filter_sublist E)
  have h2 : (E.take nr).Sublist E := List.take_sublist nr E
  have hsub : F.Sublist E := by
    by_cases hR : R.isEmpty <;> simp [F, selectFinal, hR, h1, h2]
  refine ⟨⟨?_, ?_⟩, ?_, ?_, ?_⟩
  · have := hsub.map fun j : JudgedResult => j.result
    rwa [evaluate_relevance_map_result rs resp] at this
  · by_cases hR : R.isEmpty <;>
      simp [F, selectFinal, hR, List.length_take]
  · intro hR
    have hR' : R.isEmpty = false := by
      cases hRe : R with
      | nil => exact absurd hRe hR
      | cons a t => rfl
    constructor
    · simp [F, selectFinal, hR']
    · intro j hj
      have hjR : j ∈ R := by
        have : F = R.take nr := by simp [F, selectFinal, hR']
        exact List.mem_of_mem_take (this ▸ hj)
      exact (List.mem_filter.mp hjR).2
  · intro hR
    simp [F, selectFinal, hR]
  · exact fun c origQ curQ nr' fuel E' R' h =>
      leadLoop_accepted_filter c origQ nr' fuel curQ E' R' h

theorem C4_selection_policy_witness :
    ((selectFinal
        ((evaluate_relevance [exResult]
            (some [⟨some 0, some true, some 1, some "y"⟩])).filter
          fun r => r.is_relevant)
        (evaluate_relevance [exResult]
          (some [⟨some 0, some true, some 1, some "y"⟩])) 1).map
      fun j => j.result).Sublist [exResult] ∧
    selectFinal
        ((evaluate_relevance [exResult]
            (some [⟨some 0, some true, some 1, some "y"⟩])).filter
          fun r => r.is_relevant)
        (evaluate_relevance [exResult]
          (some [⟨some 0, some true, some 1, some "y"⟩])) 1 =
      ((evaluate_relevance [exResult]
          (some [⟨some 0, some true, some 1, some "y"⟩])).filter
        fun r => r.is_relevant).take 1 := by
  obtain ⟨⟨hs, _⟩, hne, _, _⟩ := C4_selection_policy [exResult]
    (some [⟨some 0, some true, some 1, some "y"⟩]) 1
  exact ⟨hs, (hne (by with_unfolding_all decide)).1⟩

/-- C6 counterexample: with a duplicated search result the source matches
every copy through `list.index`, the index of the first equal element, so
both copies receive the judgment for index 0, while matching by original
positional index would give the second copy the judgment for index 1. -/
theorem C6_counterexample_duplicate_matching :
    (evaluate_relevance [exResult, exResult]
        (some [⟨some 0, some true, some 1, some "y"⟩,
               ⟨some 1, some false, some 0, some "n"⟩])).map
        (fun j => j.is_relevant) = [true, true] ∧
    (evaluate_relevance_spec [exResult, exResult]
        [⟨some 0, some true, some 1, some "y"⟩,
         ⟨some 1, some false, some 0, some "n"⟩]).map
        (fun j => j.is_relevant) = [true, false] ∧
    evaluate_relevance [exResult, exResult]
        (some [⟨some 0, some true, some 1, some "y"⟩,
               ⟨some 1, some false, some 0, some "n"⟩]) ≠
      evaluate_relevance_spec [exResult, exResult]
        [⟨some 0, some true, some 1, some "y"⟩,
         ⟨some 1, some false, some 0, some "n"⟩] := by
  with_unfolding_all decide

/-- C6 (amended): relevance evaluation always returns exactly one judged
result per input result; an index whose judgment lookup fails gets the
default not-relevant judgment with confidence 0; and for batches with no
duplicate results the source's first-equal-element matching coincides
with matching by original positional index. -/
theorem C6_amended_positional_matching :
    (∀ (rs : List SearchResult) (resp : Option (List RelevanceData)),
      (evaluate_relevance rs resp).length = rs.length) ∧
    (∀ (rd : List RelevanceData) (i : Nat) (r : SearchResult),
      rd.find? (fun x => decide (x.index = some i)) = none →
      judgeOne rd i r = ⟨r, false, 0, "Could not evaluate relevance"⟩) ∧
    (∀ (rs : List SearchResult) (rd : List RelevanceData),
      rs.Nodup →
      evaluate_relevance rs (some rd) = evaluate_relevance_spec rs rd) := by
  refine ⟨evaluate_relevance_length, ?_, ?_⟩
  · intro rd i r h
    unfold judgeOne
    rw [h]
  · intro rs rd hnd
    apply List.ext_getElem
    · simp [evaluate_relevance, evaluate_relevance_spec, List.enum_length]
    · intro n h1 h2
      have hn : n < rs.length := by
        rwa [evaluate_relevance_length] at h1
      simp only [evaluate_relevance, evaluate_relevance_spec,
        List.getElem_map, List.getElem_enum]
      rw [pyIndex_getElem rs hnd n hn]

theorem C6_amended_positional_matching_witness :
    evaluate_relevance [exResult]
        (some [⟨some 0, some true, some 1, some "y"⟩]) =
      evaluate_relevance_spec [exResult]
        [⟨some 0, some true, some 1, some "y"⟩] :=
  C6_amended_positional_matching.2.2 [exResult]
    [⟨some 0, some true, some 1, some "y"⟩] (by with_unfolding_all decide)

theorem generate_stats (c : Collabs) (clock : Nat → String) (q : String)
    (nr : Nat) :
    (generate_leads_dataframe c clock q nr).stats =
      (leadLoop c q nr (max_retries - 1) q).2 := by
  cases hexit : (leadLoop c q nr (max_retries - 1) q).1 with
  | noResults => simp [generate_leads_dataframe, hexit]
  | accepted E R =>
      by_cases hf : (selectFinal R E nr).isEmpty <;>
        simp [generate_leads_dataframe, hexit, hf]

/-- C7: a fetch failure for one candidate only skips that candidate: with
the fetcher changed so that exactly that candidate's fetch succeeds (all
other candidates' fetches unchanged), the output gains exactly that
candidate's record at its position, every other record is unchanged, the
output is exactly one record longer, and every candidate of a batch is
always fetched (a per-candidate failure never aborts the batch). -/
theorem C7_fetch_failure_skips_one :
    ∀ (c : Collabs) (f' : String → Option String) (clock : Nat → String)
      (pre post : List JudgedResult) (r : JudgedResult) (i : Nat),
      pyTruthy (c.fetcher r.result.link) = false →
      pyTruthy (f' r.result.link) = true →
      (∀ x ∈ pre ++ post, f' x.result.link = c.fetcher x.result.link) →
      ((processCandidates c clock (pre ++ r :: post) i).leads =
          (processCandidates c clock pre i).leads ++
            (processCandidates c clock post (i + pre.length + 1)).leads ∧
        (processCandidates { c with fetcher := f' } clock
            (pre ++ r :: post) i).leads =
          (processCandidates c clock pre i).leads ++
            candidateRecord c clock r (i + pre.length)
                ((f' r.result.link).getD "") ::
              (processCandidates c clock post (i + pre.length + 1)).leads ∧
        (processCandidates { c with fetcher := f' } clock
            (pre ++ r :: post) i).leads.length =
          (processCandidates c clock (pre ++ r :: post) i).leads.length
            + 1) ∧
      (∀ (l : List JudgedResult) (j : Nat),
        (processCandidates c clock l j).fetchCalls = l.length) := by
  intro c f' clock pre post r i hfail hsucc hagree
  have hpre : ∀ x ∈ pre, f' x.result.link = c.fetcher x.result.link :=
    fun x hx => hagree x (List.mem_append_left _ hx)
  have hpost : ∀ x ∈ post, f' x.result.link = c.fetcher x.result.link :=
    fun x hx => hagree x (List.mem_append_right _ hx)
  have happ := processCandidates_append c clock pre (r :: post) i
  have hcons : processCandidates c clock (r :: post) (i + pre.length) =
      ⟨(processCandidates c clock post (i + pre.length + 1)).leads,
       (processCandidates c clock post (i + pre.length + 1)).fetchCalls + 1,
       (processCandidates c clock post (i + pre.length + 1)).extractCalls⟩ := by
    simp [processCandidates, hfail]
  have h1 : (processCandidates c clock (pre ++ r :: post) i).leads =
      (processCandidates c clock pre i).leads ++
        (processCandidates c clock post (i + pre.length + 1)).leads := by
    rw [happ, hcons]
  have happ' := processCandidates_append { c with fetcher := f' } clock pre
    (r :: post) i
  have hpre' : processCandidates { c with fetcher := f' } clock pre i =
      processCandidates c clock pre i :=
    processCandidates_fetcher_congr c f' clock pre i hpre
  have hpost' : processCandidates { c with fetcher := f' } clock post
      (i + pre.length + 1) =
      processCandidates c clock post (i + pre.length + 1) :=
    processCandidates_fetcher_congr c f' clock post (i + pre.length + 1)
      hpost
  have hcons' : processCandidates { c with fetcher := f' } clock (r :: post)
      (i + pre.length) =
      ⟨candidateRecord c clock r (i + pre.length)
          ((f' r.result.link).getD "") ::
          (processCandidates c clock post (i + pre.length + 1)).leads,
       (processCandidates c clock post (i + pre.length + 1)).fetchCalls + 1,
       (processCandidates c clock post (i + pre.length + 1)).extractCalls
         + 1⟩ := by
    have hcand : candidateRecord { c with fetcher := f' } clock r
        (i + pre.length) ((f' r.result.link).getD "") =
        candidateRecord c clock r (i + pre.length)
          ((f' r.result.link).getD "") := rfl
    simp [processCandidates, hsucc, hpost', hcand]
  have h2 : (processCandidates { c with fetcher := f' } clock
      (pre ++ r :: post) i).leads =
      (processCandidates c clock pre i).leads ++
        candidateRecord c clock r (i + pre.length)
            ((f' r.result.link).getD "") ::
          (processCandidates c clock post (i + pre.length + 1)).leads := by
    rw [happ', hpre', hcons']
  refine ⟨⟨h1, h2, ?_⟩, fun l j => processCandidates_fetchCalls c clock l j⟩
  rw [h1, h2]
  simp only [List.length_append, List.length_cons]
  omega

theorem C7_fetch_failure_skips_one_witness :
    (processCandidates exCollabsNoFetch (fun _ => "t")
        [⟨exResult, true, 1, "ok"⟩] 1).leads = [] ∧
    (processCandidates
        { exCollabsNoFetch with fetcher := fun _ => some "x" } (fun _ => "t")
        [⟨exResult, true, 1, "ok"⟩] 1).leads.length =
      (processCandidates exCollabsNoFetch (fun _ => "t")
        [⟨exResult, true, 1, "ok"⟩] 1).leads.length + 1 := by
  have h := C7_fetch_failure_skips_one exCollabsNoFetch (fun _ => some "x")
    (fun _ => "t") [] [] ⟨exResult, true, 1, "ok"⟩ 1 rfl rfl
    (by intro x hx; simp at hx)
  refine ⟨?_, h.1.2.2⟩
  have h1 := h.1.1
  simpa [processCandidates] using h1

/-- C9 counterexample: when the extraction LLM successfully returns the
empty JSON dict, the produced record passes through unchecked, so the
output record lacks the `company_name` field entirely — key presence is
not guaranteed for arbitrary extractor behavior. -/
theorem C9_counterexample_missing_field :
    (generate_leads_dataframe exCollabs (fun _ => "t") "q" 1).leads.length
        = 1 ∧
    ¬ hasKey ((generate_leads_dataframe exCollabs (fun _ => "t")
        "q" 1).leads.headD []) "company_name" := by
  with_unfolding_all decide

/-- C9 (amended): every record in the controller's output carries the six
controller-assigned metadata keys; and whenever structured extraction
fails (regex fallback path), the record additionally carries all 15 lead
fields, with `"N/A"` sentinels for unobservable values.  On a successful
parse, however, the lead-field keys are exactly whatever the extraction
collaborator returned, so a lead field can be absent. -/
theorem C9_amended_field_presence :
    (∀ (c : Collabs) (clock : Nat → String) (q : String) (nr : Nat),
      ∀ rec ∈ (generate_leads_dataframe c clock q nr).leads,
        ∀ k ∈ metaFieldNames, hasKey rec k) ∧
    (∀ (c : Collabs) (clock : Nat → String) (r : JudgedResult) (i : Nat)
      (content : String),
      c.extractor content r.result.link = none →
      ∀ k ∈ leadFieldNames ++ metaFieldNames,
        hasKey (candidateRecord c clock r i content) k) := by
  constructor
  · intro c clock q nr rec hrec k hk
    have hcand : ∃ (r : JudgedResult) (j : Nat) (s : String),
        rec = candidateRecord c clock r j s := by
      simp only [generate_leads_dataframe] at hrec
      split at hrec
      · simp at hrec
      · split at hrec
        · simp at hrec
        · exact mem_processCandidates c clock _ 1 rec hrec
    obtain ⟨r, j, s, rfl⟩ := hcand
    exact hasKey_candidateRecord_meta c clock r j s k hk
  · intro c clock r i content hx k hk
    rw [List.mem_append] at hk
    rcases hk with hk | hk
    · have hbase : hasKey (extract_lead_info c content r.result.link) k := by
        have hfall : extract_lead_info c content r.result.link =
            _create_fallback_lead_data c r.result.link content := by
          unfold extract_lead_info
          rw [hx]
        rw [hfall]
        exact hasKey_of_mem_keys _ _ (by rw [fallback_keys]; exact hk)
      exact hasKey_setKey_of _ _ _ _ (hasKey_setKey_of _ _ _ _
        (hasKey_setKey_of _ _ _ _ (hasKey_setKey_of _ _ _ _
        (hasKey_setKey_of _ _ _ _ (hasKey_setKey_of _ _ _ _ hbase)))))
    · exact hasKey_candidateRecord_meta c clock r i content k hk

theorem C9_amended_field_presence_witness :
    hasKey (candidateRecord exCollabsEmptyPage (fun _ => "t")
      ⟨exResult, true, 1, "ok"⟩ 1 "page") "company_name" ∧
    hasKey (candidateRecord exCollabsEmptyPage (fun _ => "t")
      ⟨exResult, true, 1, "ok"⟩ 1 "page") "scraped_at" := by
  constructor
  · exact C9_amended_field_presence.2 exCollabsEmptyPage (fun _ => "t")
      ⟨exResult, true, 1, "ok"⟩ 1 "page" rfl "company_name"
      (by simp [leadFieldNames, metaFieldNames])
  · exact C9_amended_field_presence.2 exCollabsEmptyPage (fun _ => "t")
      ⟨exResult, true, 1, "ok"⟩ 1 "page" rfl "scraped_at"
      (by simp [leadFieldNames, metaFieldNames])

/-- C8 counterexample: two invocations with identical deterministic
collaborator behavior but clocks one tick apart produce different output
records (the `scraped_at` field differs), so output is not identical
across invocations as the claim states. -/
theorem C8_counterexample_timestamp :
    (generate_leads_dataframe exCollabs (fun _ => "t1") "q" 1).leads ≠
      (generate_leads_dataframe exCollabs (fun _ => "t2") "q" 1).leads := by
  with_unfolding_all decide

/-- C8 (amended): two invocations with the same query and targetCount,
pointwise-identical deterministic collaborator behavior, and identical
clock readings produce identical output (records, field values, order,
and call counts). -/
theorem C8_amended_determinism :
    ∀ (c1 c2 : Collabs) (clock1 clock2 : Nat → String) (q : String)
      (nr : Nat),
      (∀ s n, c1.organic s n = c2.organic s n) →
      (∀ rs s, c1.scorer rs s = c2.scorer rs s) →
      (∀ s e, c1.refiner s e = c2.refiner s e) →
      (∀ u, c1.fetcher u = c2.fetcher u) →
      (∀ s u, c1.extractor s u = c2.extractor s u) →
      (∀ s, c1.findEmails s = c2.findEmails s) →
      (∀ s, c1.findPhones s = c2.findPhones s) →
      (∀ s, c1.findLinkedin s = c2.findLinkedin s) →
      (∀ s, c1.netloc s = c2.netloc s) →
      (∀ s, c1.pyTitle s = c2.pyTitle s) →
      (∀ n, clock1 n = clock2 n) →
      generate_leads_dataframe c1 clock1 q nr =
        generate_leads_dataframe c2 clock2 q nr := by
  intro c1 c2 clock1 clock2 q nr h1 h2 h3 h4 h5 h6 h7 h8 h9 h10 hclock
  have hc : c1 = c2 := by
    cases c1
    cases c2
    congr 1
    · funext a b; exact h1 a b
    · funext a b; exact h2 a b
    · funext a b; exact h3 a b
    · funext a; exact h4 a
    · funext a b; exact h5 a b
    · funext a; exact h6 a
    · funext a; exact h7 a
    · funext a; exact h8 a
    · funext a; exact h9 a
    · funext a; exact h10 a
  subst hc
  have hck : clock1 = clock2 := funext hclock
  rw [hck]

theorem C8_amended_determinism_witness :
    generate_leads_dataframe exCollabs (fun _ => "t") "q" 1 =
      generate_leads_dataframe exCollabs (fun _ => "t" ++ "") "q" 1 :=
  C8_amended_determinism exCollabs exCollabs (fun _ => "t")
    (fun _ => "t" ++ "") "q" 1
    (fun _ _ => rfl) (fun _ _ => rfl) (fun _ _ => rfl) (fun _ => rfl)
    (fun _ _ => rfl) (fun _ => rfl) (fun _ => rfl) (fun _ => rfl)
    (fun _ => rfl) (fun _ => rfl) (fun _ => rfl)

/-- C1: when every attempt's search returns a non-empty list and every
attempt's judged batch misses the relevance threshold, the run performs
exactly `max_retries` (3) search and judge round trips and exactly
`max_retries - 1` (2) refinement calls, and the loop accepts the batch
produced by the third attempt's query (degraded acceptance); moreover no
run ever performs more than `max_retries` searches or judges, or more
than `max_retries - 1` refinements. -/
theorem C1_degraded_acceptance :
    (∀ (c : Collabs) (clock : Nat → String) (q : String) (nr : Nat),
      (∀ q', search_companies c q' (nr * 2) ≠ []) →
      (∀ q', relevanceRate (judgeBatch c q nr q') < relevance_threshold) →
      (generate_leads_dataframe c clock q nr).stats.searches = max_retries ∧
      (generate_leads_dataframe c clock q nr).stats.judges = max_retries ∧
      (generate_leads_dataframe c clock q nr).stats.refines =
        max_retries - 1 ∧
      (leadLoop c q nr (max_retries - 1) q).1 =
        LoopExit.accepted (judgeBatch c q nr (attemptQuery c q nr 2))
          ((judgeBatch c q nr (attemptQuery c q nr 2)).filter fun r =>
            r.is_relevant)) ∧
    (∀ (c : Collabs) (clock : Nat → String) (q : String) (nr : Nat),
      (generate_leads_dataframe c clock q nr).stats.searches ≤ max_retries ∧
      (generate_leads_dataframe c clock q nr).stats.judges ≤ max_retries ∧
      (generate_leads_dataframe c clock q nr).stats.refines ≤
        max_retries - 1) := by
  constructor
  · intro c clock q nr hne hlow
    have hth : ∀ q', ¬ relevance_threshold ≤
        relevanceRate (judgeBatch c q nr q') :=
      fun q' => not_le.mpr (hlow q')
    have hq1 : attemptQuery c q nr 1 = c.refiner q (judgeBatch c q nr q) :=
      rfl
    have hq2 : attemptQuery c q nr 2 =
        c.refiner q (judgeBatch c q nr (attemptQuery c q nr 1)) := rfl
    have e1 := leadLoop_retry c q q nr 1 (hne q) (hth q)
    have e2 := leadLoop_retry c q (attemptQuery c q nr 1) nr 0
      (hne _) (hth _)
    have e3 := leadLoop_last c q (attemptQuery c q nr 2) nr (hne _) (hth _)
    norm_num at e1 e2
    have hchain : leadLoop c q nr (max_retries - 1) q =
        (LoopExit.accepted (judgeBatch c q nr (attemptQuery c q nr 2))
          ((judgeBatch c q nr (attemptQuery c q nr 2)).filter fun r =>
            r.is_relevant),
         ⟨3, 3, 2, [nr * 2, nr * 2, nr * 2]⟩) := by
      show leadLoop c q nr 2 q = _
      rw [e1, ← hq1, e2, ← hq2, e3]
    refine ⟨?_, ?_, ?_, ?_⟩
    · rw [generate_stats, hchain]
      exact rfl
    · rw [generate_stats, hchain]
      exact rfl
    · rw [generate_stats, hchain]
      exact rfl
    · rw [hchain]
  · intro c clock q nr
    have h := leadLoop_counts_le c q nr (max_retries - 1) q
    rw [generate_stats]
    exact ⟨h.1, h.2.1, h.2.2⟩

theorem C1_degraded_acceptance_witness :
    (generate_leads_dataframe exCollabsLow (fun _ => "t")
        "q" 1).stats.searches = max_retries ∧
    (generate_leads_dataframe exCollabsLow (fun _ => "t")
        "q" 1).stats.judges = max_retries ∧
    (generate_leads_dataframe exCollabsLow (fun _ => "t")
        "q" 1).stats.refines = max_retries - 1 := by
  have h := C1_degraded_acceptance.1 exCollabsLow (fun _ => "t") "q" 1
    (fun q' => by
      show [exResult] ≠ []
      decide)
    (fun q' => by
      show relevanceRate (evaluate_relevance [exResult] (some [])) <
        relevance_threshold
      with_unfolding_all decide)
  exact ⟨h.1, h.2.1, h.2.2.1⟩
